import Mathlib

/-!
Shallow embedding of the Mars Orbiter game core (`Mars_Orbiter_Game.py`):
satellite and planet state, the thruster and arrow-key handling
(`Satellite.thruster`, `Satellite.check_keys`), heading/distance
computation (`Satellite.locate`), gravity (`Planet.gravity`), orbital
eccentricity (`calc_eccentricity`), the per-tick fail-condition and
mapping-eligibility checks of `main`, and the tick sequencing of the main
loop.  Real-valued quantities are modelled with `ℝ`, the integer fuel
counter with `ℤ`.  Operations that raise `ZeroDivisionError` in Python
(division when the divisor is zero) and `max`/`min` of an empty list are
modelled as `Option`-valued, returning `none` exactly where Python raises.
Rendering, audio and asset handling are out of scope, as in the design
document.
-/

namespace MarsOrbiter

/-- Currently held arrow keys, as sampled by `pg.key.get_pressed()`. -/
structure Keys where
  right : Bool
  left : Bool
  up : Bool
  down : Bool

/-- Function `calc_eccentricity(dist_list)`: apoapsis = `max(dist_list)`, periapsis =
`min(dist_list)`, result `(apoapsis - periapsis) / (apoapsis + periapsis)`.
Python raises on an empty list (`max([])`) and on a zero denominator
(`ZeroDivisionError`); both cases are `none`.  Stated polymorphically so it
can be used both computably over `ℚ` and over `ℝ` inside the tick model. -/
def calc_eccentricity {α : Type} [LinearOrderedField α] [DecidableEq α]
    (dist_list : List α) : Option α :=
  match dist_list with
  | [] => none
  | d :: ds =>
    let apoapsis := ds.foldl max d
    let periapsis := ds.foldl min d
    if apoapsis + periapsis = 0 then none
    else some ((apoapsis - periapsis) / (apoapsis + periapsis))

noncomputable section

open scoped Classical

/-- Simulation-relevant fields of the `Satellite` sprite: position `x`,`y`,
velocity `dx`,`dy`, `heading` (degrees), integer `fuel`, `mass`, and the
cached `distance` to the planet (initialised to 0, updated by `locate`). -/
structure Satellite where
  x : ℝ
  y : ℝ
  dx : ℝ
  dy : ℝ
  heading : ℝ
  fuel : ℤ
  mass : ℝ
  distance : ℝ

/-- Simulation-relevant fields of the `Planet` sprite: fixed position and
mass, plus the rendering rotation `angle` (degrees). -/
structure Planet where
  x : ℝ
  y : ℝ
  mass : ℝ
  angle : ℝ

/-- Method `Satellite.thruster(dx, dy)`: add the increments to the velocity and
unconditionally subtract 2 units of fuel (the sound effect is out of
scope). -/
def Satellite.thruster (s : Satellite) (dx dy : ℝ) : Satellite :=
  { s with dx := s.dx + dx, dy := s.dy + dy, fuel := s.fuel - 2 }

/-- Method `Satellite.check_keys()`: fire the thruster for the first held arrow key
in the fixed `elif` precedence right, left, up, down.  There is no fuel test
anywhere in this method. -/
def Satellite.check_keys (s : Satellite) (keys : Keys) : Satellite :=
  if keys.right then s.thruster 0.05 0
  else if keys.left then s.thruster (-0.05) 0
  else if keys.up then s.thruster 0 (-0.05)
  else if keys.down then s.thruster 0 0.05
  else s

/-- Python `math.atan2(y, x)`: the angle of the point `(x, y)`, in `(-π, π]`,
modelled by `Complex.arg` (which also agrees with Python at `atan2(0, 0) =
0`). -/
def atan2 (y x : ℝ) : ℝ := Complex.arg ⟨x, y⟩

/-- Method `Satellite.locate(planet)`: store `heading = atan2(dist_x, dist_y)`
converted to degrees minus the fixed 90° sprite offset, and `distance =
math.hypot(dist_x, dist_y)` where `dist_x`,`dist_y` are satellite minus
planet coordinates. -/
def Satellite.locate (s : Satellite) (p : Planet) : Satellite :=
  let dist_x := s.x - p.x
  let dist_y := s.y - p.y
  let planet_dir_radians := atan2 dist_x dist_y
  { s with
    heading := planet_dir_radians * 180 / Real.pi - 90,
    distance := Real.sqrt (dist_x ^ 2 + dist_y ^ 2) }

/-- The scalar gravity force of `Planet.gravity`:
`G * (satellite.mass * self.mass) / math.pow(distance, 2)` with `G = 1.0`. -/
def force_of (sat_mass planet_mass distance : ℝ) : ℝ :=
  1.0 * (sat_mass * planet_mass) / distance ^ 2

/-- The `distance = math.hypot(dist_x, dist_y)` recomputed inside
`Planet.gravity` from the planet-minus-satellite differences. -/
def dist_between (p : Planet) (s : Satellite) : ℝ :=
  Real.sqrt ((p.x - s.x) ^ 2 + (p.y - s.y) ^ 2)

/-- The pair of velocity increments of `Planet.gravity`: each component of
the planet-minus-satellite vector normalised by the distance (the unit
vector) times the scalar force. -/
def gravity_delta (p : Planet) (s : Satellite) : ℝ × ℝ :=
  ((p.x - s.x) / dist_between p s * force_of s.mass p.mass (dist_between p s),
   (p.y - s.y) / dist_between p s * force_of s.mass p.mass (dist_between p s))

/-- Method `Planet.gravity(satellite)`: normalise the planet-minus-satellite vector
to a unit vector and add it, scaled by `force_of`, to the satellite's
velocity.  When the recomputed distance is zero Python raises
`ZeroDivisionError` at the normalisation step, modelled as `none`. -/
def Planet.gravity (p : Planet) (s : Satellite) : Option Satellite :=
  if dist_between p s = 0 then none
  else some { s with
    dx := s.dx + (gravity_delta p s).1,
    dy := s.dy + (gravity_delta p s).2 }

/-- Body of the `if sat.fuel <= 0` branch of `main`: clamp fuel to 0 and
force the drift velocity `dx = 2` (the on-screen message is out of scope). -/
def fuel_depleted_branch (s : Satellite) : Satellite :=
  { s with fuel := 0, dx := 2 }

/-- Body of the `elif sat.distance <= 68` branch of `main`: zero both
velocity components (the on-screen message is out of scope). -/
def atmospheric_entry_branch (s : Satellite) : Satellite :=
  { s with dx := 0, dy := 0 }

/-- The fuel/altitude fail-condition check of `main`:
`if sat.fuel <= 0: ... elif sat.distance <= 68: ...`. -/
def fail_check (s : Satellite) : Satellite :=
  if s.fuel ≤ 0 then fuel_depleted_branch s
  else if s.distance ≤ 68 then atmospheric_entry_branch s
  else s

/-- The mapping-eligibility check of `main`:
`if eccentricity < 0.05 and 69 <= sat.distance <= 120: mapping_enabled =
True else: mapping_enabled = False`. -/
def mapping_check (eccentricity distance : ℝ) : Bool :=
  if eccentricity < 0.05 ∧ 69 ≤ distance ∧ distance ≤ 120 then true
  else false

/-- Method `Satellite.path()`: integrate position by the current velocity (the
trail-line drawing is out of scope). -/
def Satellite.path (s : Satellite) : Satellite :=
  { s with x := s.x + s.dx, y := s.y + s.dy }

/-- Method `Satellite.update()`: `check_keys` then `path` (the `rotate` call and the
crash-image swap only touch rendering state and are out of scope). -/
def Satellite.update (s : Satellite) (keys : Keys) : Satellite :=
  (s.check_keys keys).path

/-- Constant `math.degrees(0.01)`, the per-tick rotation increment of the planet. -/
def rotate_by : ℝ := 0.01 * 180 / Real.pi

/-- Method `Planet.update()`: the only simulation-visible effect of
`Planet.rotate()` is `angle += rotate_by`. -/
def Planet.update (p : Planet) : Planet :=
  { p with angle := p.angle + rotate_by }

/-- Frame rate constant `fps = 30` of `main`. -/
def fps : ℕ := 30

/-- Constant `eccentricty_calc_interval = 5` of `main` (source spelling kept). -/
def eccentricty_calc_interval : ℕ := 5

/-- Mutable state of the main loop: the two sprites, the orbit sample
window `dist_list`, the current `eccentricity` estimate (initialised to 1),
the tick counter and the mapping-enabled flag. -/
structure GameState where
  sat : Satellite
  planet : Planet
  dist_list : List ℝ
  eccentricity : ℝ
  tick_count : ℕ
  mapping_enabled : Bool

/-- The periodic eccentricity recomputation of `main`: every
`eccentricty_calc_interval * fps` ticks replace the estimate by
`calc_eccentricity(dist_list)` and clear the window, otherwise keep both.
Returns the (eccentricity, dist_list) pair; `none` where
`calc_eccentricity` raises. -/
def ecc_step (tick_count : ℕ) (dist_list : List ℝ) (eccentricity : ℝ) :
    Option (ℝ × List ℝ) :=
  if tick_count % (eccentricty_calc_interval * fps) = 0 then
    match calc_eccentricity dist_list with
    | none => none
    | some e => some (e, [])
  else some (eccentricity, dist_list)

/-- One iteration of the main loop of `main`, in source order: increment the
tick counter, append the (pre-tick) `sat.distance` to `dist_list`, then
`sat.locate(planet)`, `planet.gravity(sat)`, the periodic eccentricity
recomputation, the fuel/altitude fail check, the mapping-eligibility check,
`planet.update()` and finally `sat.update()` (which fires thrusters from
held keys and integrates position).  Event handling, drawing and the
telemetry read-outs are out of scope; the held-key set is the `keys`
argument. -/
def tick (g : GameState) (keys : Keys) : Option GameState :=
  let tick_count := g.tick_count + 1
  let dist_list := g.dist_list ++ [g.sat.distance]
  let sat1 := g.sat.locate g.planet
  (g.planet.gravity sat1).bind fun sat2 =>
    (ecc_step tick_count dist_list g.eccentricity).bind fun ed =>
      let sat3 := fail_check sat2
      some
        { sat := sat3.update keys
          planet := g.planet.update
          dist_list := ed.2
          eccentricity := ed.1
          tick_count := tick_count
          mapping_enabled := mapping_check ed.1 sat3.distance }

/-- The planet of `main`: position (400, 320), mass 2000, initial angle
`math.degrees(0) = 0`. -/
def mars : Planet := { x := 400, y := 320, mass := 2000, angle := 0 }

/-- No arrow key held. -/
def keysNone : Keys := ⟨false, false, false, false⟩

/-- Only the up-arrow key held. -/
def keysUp : Keys := ⟨false, false, true, false⟩

/-- A concrete satellite 120 units straight above the planet's centre, with
full fuel, used to instantiate the universally quantified theorems. -/
def sat_example : Satellite :=
  { x := 400, y := 200, dx := 0, dy := 0, heading := 0, fuel := 100,
    mass := 1, distance := 0 }

/-- The `sat_example` satellite with its fuel already exhausted. -/
def sat_out_of_fuel : Satellite := { sat_example with fuel := 0 }

/-- A game state at the start of a tick in which fuel is already exhausted:
the loop variables hold their initial values from `main` (`dist_list = []`,
`eccentricity = 1`, `tick_count = 0`, `mapping_enabled = False`). -/
def g_out_of_fuel : GameState :=
  { sat := sat_out_of_fuel, planet := mars, dist_list := [], eccentricity := 1,
    tick_count := 0, mapping_enabled := false }

/-- Constructor `Satellite.__init__`: random position in [315, 425) × [70, 180) and
`dx = ±3` are the caller's choice; `dy = 0`, `heading = 0`, `fuel = 100`,
`mass = 1` and the `distance` placeholder 0 are fixed. -/
def init_sat (x y dx : ℝ) : Satellite :=
  { x := x, y := y, dx := dx, dy := 0, heading := 0, fuel := 100,
    mass := 1, distance := 0 }

/-- The state of `main` just before the first loop iteration. -/
def init_state (x y dx : ℝ) : GameState :=
  { sat := init_sat x y dx, planet := mars, dist_list := [], eccentricity := 1,
    tick_count := 0, mapping_enabled := false }

end

/-! ### Helper lemmas -/

/-- The left fold of `max` over a list (Python's `max`) is an element of the
list. -/
theorem foldl_max_mem (d : ℚ) (ds : List ℚ) : ds.foldl max d ∈ d :: ds := by
  induction ds generalizing d with
  | nil => simp
  | cons a t ih =>
      have h := ih (max d a)
      rw [List.foldl_cons]
      rcases List.mem_cons.mp h with h1 | h1
      · rw [h1]
        rcases max_choice d a with h2 | h2 <;> rw [h2] <;> simp
      · simp [h1]

/-- The left fold of `max` bounds every element of the list from above. -/
theorem le_foldl_max (d : ℚ) (ds : List ℚ) : ∀ x ∈ d :: ds, x ≤ ds.foldl max d := by
  induction ds generalizing d with
  | nil =>
      intro x hx
      rw [List.mem_singleton] at hx
      simp [hx]
  | cons a t ih =>
      intro x hx
      rw [List.foldl_cons]
      have hbase : max d a ≤ t.foldl max (max d a) :=
        ih (max d a) (max d a) (List.mem_cons_self _ _)
      rcases List.mem_cons.mp hx with h1 | h1
      · rw [h1]
        exact le_trans (le_max_left d a) hbase
      · rcases List.mem_cons.mp h1 with h2 | h2
        · rw [h2]
          exact le_trans (le_max_right d a) hbase
        · exact ih (max d a) x (List.mem_cons.mpr (Or.inr h2))

/-- The left fold of `min` over a list (Python's `min`) is an element of the
list. -/
theorem foldl_min_mem (d : ℚ) (ds : List ℚ) : ds.foldl min d ∈ d :: ds := by
  induction ds generalizing d with
  | nil => simp
  | cons a t ih =>
      have h := ih (min d a)
      rw [List.foldl_cons]
      rcases List.mem_cons.mp h with h1 | h1
      · rw [h1]
        rcases min_choice d a with h2 | h2 <;> rw [h2] <;> simp
      · simp [h1]

/-- The left fold of `min` bounds every element of the list from below. -/
theorem foldl_min_le (d : ℚ) (ds : List ℚ) : ∀ x ∈ d :: ds, ds.foldl min d ≤ x := by
  induction ds generalizing d with
  | nil =>
      intro x hx
      rw [List.mem_singleton] at hx
      simp [hx]
  | cons a t ih =>
      intro x hx
      rw [List.foldl_cons]
      have hbase : t.foldl min (min d a) ≤ min d a :=
        ih (min d a) (min d a) (List.mem_cons_self _ _)
      rcases List.mem_cons.mp hx with h1 | h1
      · rw [h1]
        exact le_trans hbase (min_le_left d a)
      · rcases List.mem_cons.mp h1 with h2 | h2
        · rw [h2]
          exact le_trans hbase (min_le_right d a)
        · exact ih (min d a) x (List.mem_cons.mpr (Or.inr h2))

/-- Any member of the list that bounds all members from above is the value
of the `max` fold. -/
theorem foldl_max_eq (d : ℚ) (ds : List ℚ) (M : ℚ) (hM : M ∈ d :: ds)
    (hub : ∀ x ∈ d :: ds, x ≤ M) : ds.foldl max d = M :=
  le_antisymm (hub _ (foldl_max_mem d ds)) (le_foldl_max d ds M hM)

/-- Any member of the list that bounds all members from below is the value
of the `min` fold. -/
theorem foldl_min_eq (d : ℚ) (ds : List ℚ) (m : ℚ) (hm : m ∈ d :: ds)
    (hlb : ∀ x ∈ d :: ds, m ≤ x) : ds.foldl min d = m :=
  le_antisymm (foldl_min_le d ds m hm) (hlb _ (foldl_min_mem d ds))

/-- Fuel after iterating the thruster: each firing subtracts exactly 2. -/
theorem thruster_iterate_fuel (a b : ℝ) (s : Satellite) (n : ℕ) :
    ((fun t : Satellite => t.thruster a b)^[n] s).fuel = s.fuel - 2 * n := by
  induction n generalizing s with
  | zero => simp
  | succ n ih =>
      rw [Function.iterate_succ_apply, ih]
      simp only [Satellite.thruster]
      push_cast
      ring

/-! ### Claims -/

/-- C1: in a tick where both fail conditions hold (fuel ≤ 0 and
distance ≤ 68) the fuel-depleted branch is taken and the atmospheric-entry
branch is skipped — the `elif` gives the fuel check precedence, so in
particular `dy` is left untouched (the skipped branch would zero it). -/
theorem fail_check_fuel_precedence (s : Satellite)
    (hfuel : s.fuel ≤ 0) (hdist : s.distance ≤ 68) :
    fail_check s = fuel_depleted_branch s ∧ (fail_check s).dy = s.dy := by
  unfold fail_check
  rw [if_pos hfuel]
  exact ⟨rfl, rfl⟩

/-- Witness for C1 at the spec's own input: fuel = 0 and distance = 50. -/
theorem fail_check_fuel_precedence_witness :
    (0 : ℤ) ≤ 0 ∧ (50 : ℝ) ≤ 68 ∧
      (fail_check ⟨340, 195, 1, -1, 0, 0, 1, 50⟩ =
          fuel_depleted_branch ⟨340, 195, 1, -1, 0, 0, 1, 50⟩ ∧
        (fail_check ⟨340, 195, 1, -1, 0, 0, 1, 50⟩).dy =
          (⟨340, 195, 1, -1, 0, 0, 1, 50⟩ : Satellite).dy) :=
  ⟨le_refl 0, by norm_num,
    fail_check_fuel_precedence ⟨340, 195, 1, -1, 0, 0, 1, 50⟩ (le_refl 0) (by norm_num)⟩

/-- C2 counterexample: a 51st thruster firing from full fuel leaves the fuel
counter at −2, strictly negative — `Satellite.thruster` never clamps. -/
theorem thruster_51_fuel_negative :
    ((fun t : Satellite => t.thruster 0.05 0)^[51] sat_example).fuel = -2 ∧
      ((fun t : Satellite => t.thruster 0.05 0)^[51] sat_example).fuel < 0 := by
  have h := thruster_iterate_fuel 0.05 0 sat_example 51
  rw [show sat_example.fuel = 100 from rfl] at h
  have h2 : ((fun t : Satellite => t.thruster 0.05 0)^[51] sat_example).fuel = -2 :=
    h.trans (by norm_num)
  exact ⟨h2, by rw [h2]; norm_num⟩

/-- C2 (amended): the thruster subtracts 2 fuel per firing with no clamping
(50 firings from 100 give exactly 0, a 51st gives −2); the clamp to 0 lives
in the fail-condition check of `main`, after which fuel is never
negative. -/
theorem fuel_clamped_only_by_fail_check :
    (∀ (a b : ℝ) (s : Satellite) (n : ℕ),
        ((fun t : Satellite => t.thruster a b)^[n] s).fuel = s.fuel - 2 * n) ∧
      ((fun t : Satellite => t.thruster 0.05 0)^[50] sat_example).fuel = 0 ∧
      (∀ s : Satellite, 0 ≤ (fail_check s).fuel) := by
  refine ⟨thruster_iterate_fuel, ?_, ?_⟩
  · have h := thruster_iterate_fuel 0.05 0 sat_example 50
    rw [show sat_example.fuel = 100 from rfl] at h
    exact h.trans (by norm_num)
  · intro s
    unfold fail_check
    by_cases hf : s.fuel ≤ 0
    · rw [if_pos hf]
      exact le_refl 0
    · rw [if_neg hf]
      by_cases hd : s.distance ≤ 68
      · rw [if_pos hd]
        show (0 : ℤ) ≤ s.fuel
        omega
      · rw [if_neg hd]
        omega

/-- C4: the mapping-eligibility check of `main` enables mapping exactly when
the eccentricity estimate is below 0.05 and the distance lies in [69, 120];
the three concrete transitions of the spec are instances. -/
theorem mapping_check_spec :
    (∀ e d : ℝ, mapping_check e d = true ↔ (e < 0.05 ∧ 69 ≤ d ∧ d ≤ 120)) ∧
      mapping_check 0.04 100 = true ∧
      mapping_check 0.06 100 = false ∧
      mapping_check 0.04 65 = false := by
  have hiff : ∀ e d : ℝ, mapping_check e d = true ↔ (e < 0.05 ∧ 69 ≤ d ∧ d ≤ 120) := by
    intro e d
    unfold mapping_check
    by_cases h : e < 0.05 ∧ 69 ≤ d ∧ d ≤ 120
    · rw [if_pos h]
      exact iff_of_true rfl h
    · rw [if_neg h]
      exact iff_of_false (by simp) h
  refine ⟨hiff, (hiff 0.04 100).mpr (by norm_num), ?_, ?_⟩
  · cases hb : mapping_check 0.06 100 with
    | false => rfl
    | true => exact absurd ((hiff 0.06 100).mp hb) (by norm_num)
  · cases hb : mapping_check 0.04 65 with
    | false => rfl
    | true => exact absurd ((hiff 0.04 65).mp hb) (by norm_num)

/-- Witness for C4: eccentricity 0.04 with distance 100 enables mapping,
obtained by instantiating the equivalence. -/
theorem mapping_check_spec_witness : mapping_check 0.04 100 = true :=
  (mapping_check_spec.1 0.04 100).mpr (by norm_num)

/-- C5 counterexample: on the one-element sample list [0] the code computes
apoapsis + periapsis = 0 and divides by zero (a Python `ZeroDivisionError`,
modelled as `none`) — it does not return 0. -/
theorem calc_eccentricity_zero_singleton :
    calc_eccentricity [(0 : ℚ)] = none ∧ calc_eccentricity [(0 : ℚ)] ≠ some 0 := by
  have h : calc_eccentricity [(0 : ℚ)] = none := by
    show (if (0 : ℚ) + 0 = 0 then none
      else some (((0 : ℚ) - 0) / ((0 : ℚ) + 0))) = none
    rw [if_pos (by norm_num)]
  refine ⟨h, ?_⟩
  rw [h]
  simp

/-- C5 (amended): on any non-empty sample list whose extremes do not sum to
zero, `calc_eccentricity` returns (max − min)/(max + min); a one-element
list [d] with d ≠ 0 yields 0, and [69, 120] yields (120 − 69)/(120 + 69). -/
theorem calc_eccentricity_spec :
    (∀ (l : List ℚ) (M m : ℚ), M ∈ l → m ∈ l →
        (∀ x ∈ l, x ≤ M) → (∀ x ∈ l, m ≤ x) → M + m ≠ 0 →
        calc_eccentricity l = some ((M - m) / (M + m))) ∧
      (∀ d : ℚ, d ≠ 0 → calc_eccentricity [d] = some 0) ∧
      calc_eccentricity [(69 : ℚ), 120] = some ((120 - 69) / (120 + 69)) := by
  have hmain : ∀ (l : List ℚ) (M m : ℚ), M ∈ l → m ∈ l →
      (∀ x ∈ l, x ≤ M) → (∀ x ∈ l, m ≤ x) → M + m ≠ 0 →
      calc_eccentricity l = some ((M - m) / (M + m)) := by
    intro l M m hM hm hub hlb hne
    cases l with
    | nil => exact absurd hM (List.not_mem_nil M)
    | cons d ds =>
        have hMax : ds.foldl max d = M := foldl_max_eq d ds M hM hub
        have hMin : ds.foldl min d = m := foldl_min_eq d ds m hm hlb
        show (if ds.foldl max d + ds.foldl min d = 0 then none
            else some ((ds.foldl max d - ds.foldl min d) /
              (ds.foldl max d + ds.foldl min d))) =
          some ((M - m) / (M + m))
        rw [hMax, hMin, if_neg hne]
  refine ⟨hmain, ?_, ?_⟩
  · intro d hd
    show (if d + d = 0 then none else some ((d - d) / (d + d))) = some 0
    rw [if_neg (by intro h; exact hd (by linarith))]
    simp
  · exact hmain [69, 120] 120 69 (by simp) (by simp)
      (by norm_num [List.forall_mem_cons]) (by norm_num [List.forall_mem_cons])
      (by norm_num)

/-- Witness for C5 (amended) at the spec's sample list [69, 120] with
maximum 120 and minimum 69. -/
theorem calc_eccentricity_spec_witness :
    calc_eccentricity [(69 : ℚ), 120] = some ((120 - 69) / (120 + 69)) :=
  calc_eccentricity_spec.1 [69, 120] 120 69 (by simp) (by simp)
    (by norm_num [List.forall_mem_cons]) (by norm_num [List.forall_mem_cons])
    (by norm_num)

/-- Unfolding lemma for `Planet.gravity` away from the division-by-zero
case. -/
theorem gravity_of_ne_zero (p : Planet) (s : Satellite)
    (hd : dist_between p s ≠ 0) :
    p.gravity s = some { s with
      dx := s.dx + (gravity_delta p s).1,
      dy := s.dy + (gravity_delta p s).2 } := by
  unfold Planet.gravity
  rw [if_neg hd]

/-- The distance from `sat_example` (400, 200) to the planet (400, 320). -/
theorem dist_between_mars_sat_example : dist_between mars sat_example = 120 := by
  unfold dist_between mars sat_example
  norm_num
  rw [show (14400 : ℝ) = 120 ^ 2 by norm_num]
  exact Real.sqrt_sq (by norm_num)

/-- C7: for positive distance, gravity adds to the velocity the unit vector
toward the planet scaled by `G·m·M/d²` (G = 1); the magnitude of the added
vector is exactly |force|, and doubling the distance quarters the force. -/
theorem gravity_inverse_square (p : Planet) (s : Satellite)
    (hd : 0 < dist_between p s) :
    p.gravity s = some { s with
        dx := s.dx + (gravity_delta p s).1,
        dy := s.dy + (gravity_delta p s).2 } ∧
      Real.sqrt ((gravity_delta p s).1 ^ 2 + (gravity_delta p s).2 ^ 2) =
        |force_of s.mass p.mass (dist_between p s)| ∧
      ∀ d : ℝ, d ≠ 0 →
        force_of s.mass p.mass (2 * d) = force_of s.mass p.mass d / 4 := by
  have hD : dist_between p s ≠ 0 := ne_of_gt hd
  refine ⟨gravity_of_ne_zero p s hD, ?_, ?_⟩
  · unfold gravity_delta
    have hsq : dist_between p s ^ 2 = (p.x - s.x) ^ 2 + (p.y - s.y) ^ 2 :=
      Real.sq_sqrt (by positivity)
    have key : ((p.x - s.x) / dist_between p s *
          force_of s.mass p.mass (dist_between p s)) ^ 2 +
        ((p.y - s.y) / dist_between p s *
          force_of s.mass p.mass (dist_between p s)) ^ 2 =
        force_of s.mass p.mass (dist_between p s) ^ 2 :=
      calc ((p.x - s.x) / dist_between p s *
            force_of s.mass p.mass (dist_between p s)) ^ 2 +
          ((p.y - s.y) / dist_between p s *
            force_of s.mass p.mass (dist_between p s)) ^ 2 =
          ((p.x - s.x) ^ 2 + (p.y - s.y) ^ 2) *
            (force_of s.mass p.mass (dist_between p s) / dist_between p s) ^ 2 := by
            ring
        _ = dist_between p s ^ 2 *
            (force_of s.mass p.mass (dist_between p s) / dist_between p s) ^ 2 := by
            rw [← hsq]
        _ = force_of s.mass p.mass (dist_between p s) ^ 2 := by
            field_simp
    rw [key, Real.sqrt_sq_eq_abs]
  · intro d hdne
    unfold force_of
    ring

/-- Witness for C7 with the satellite 120 units above the planet. -/
theorem gravity_inverse_square_witness :
    0 < dist_between mars sat_example ∧
      (mars.gravity sat_example = some { sat_example with
          dx := sat_example.dx + (gravity_delta mars sat_example).1,
          dy := sat_example.dy + (gravity_delta mars sat_example).2 } ∧
        Real.sqrt ((gravity_delta mars sat_example).1 ^ 2 +
            (gravity_delta mars sat_example).2 ^ 2) =
          |force_of sat_example.mass mars.mass (dist_between mars sat_example)| ∧
        force_of sat_example.mass mars.mass (2 * 120) =
          force_of sat_example.mass mars.mass 120 / 4) := by
  have hpos : 0 < dist_between mars sat_example := by
    rw [dist_between_mars_sat_example]
    norm_num
  have h := gravity_inverse_square mars sat_example hpos
  exact ⟨hpos, h.1, h.2.1, h.2.2 120 (by norm_num)⟩

/-- C10: for positive distance, gravity changes only the velocity
components `dx` and `dy`; position, heading, fuel, mass and the cached
distance are returned unchanged (the planet argument is never written to in
the routine, which mutates only the satellite). -/
theorem gravity_frame_effect (p : Planet) (s : Satellite)
    (hd : 0 < dist_between p s) :
    (p.gravity s).map Satellite.x = some s.x ∧
      (p.gravity s).map Satellite.y = some s.y ∧
      (p.gravity s).map Satellite.heading = some s.heading ∧
      (p.gravity s).map Satellite.fuel = some s.fuel ∧
      (p.gravity s).map Satellite.mass = some s.mass ∧
      (p.gravity s).map Satellite.distance = some s.distance ∧
      (p.gravity s).map Satellite.dx = some (s.dx + (gravity_delta p s).1) ∧
      (p.gravity s).map Satellite.dy = some (s.dy + (gravity_delta p s).2) := by
  rw [gravity_of_ne_zero p s (ne_of_gt hd)]
  exact ⟨rfl, rfl, rfl, rfl, rfl, rfl, rfl, rfl⟩

/-- Witness for C10 with the satellite 120 units above the planet. -/
theorem gravity_frame_effect_witness :
    0 < dist_between mars sat_example ∧
      ((mars.gravity sat_example).map Satellite.x = some sat_example.x ∧
        (mars.gravity sat_example).map Satellite.y = some sat_example.y ∧
        (mars.gravity sat_example).map Satellite.heading =
          some sat_example.heading ∧
        (mars.gravity sat_example).map Satellite.fuel = some sat_example.fuel ∧
        (mars.gravity sat_example).map Satellite.mass = some sat_example.mass ∧
        (mars.gravity sat_example).map Satellite.distance =
          some sat_example.distance ∧
        (mars.gravity sat_example).map Satellite.dx =
          some (sat_example.dx + (gravity_delta mars sat_example).1) ∧
        (mars.gravity sat_example).map Satellite.dy =
          some (sat_example.dy + (gravity_delta mars sat_example).2)) := by
  have hpos : 0 < dist_between mars sat_example := by
    rw [dist_between_mars_sat_example]
    norm_num
  exact ⟨hpos, gravity_frame_effect mars sat_example hpos⟩

/-- C6 counterexample: with the satellite at (399, 319), one unit left of
and above the planet centre, the distance is positive but the computed
heading `atan2(−1, −1)·180/π − 90 = −225` lies below −180, outside the
claimed [−180, 180) range. -/
theorem locate_heading_below_neg180 :
    ((⟨399, 319, 0, 0, 0, 100, 1, 0⟩ : Satellite).locate mars).heading < -180 ∧
      0 < ((⟨399, 319, 0, 0, 0, 100, 1, 0⟩ : Satellite).locate mars).distance := by
  constructor
  · show atan2 ((399 : ℝ) - 400) ((319 : ℝ) - 320) * 180 / Real.pi - 90 < -180
    rw [show ((399 : ℝ) - 400) = -1 by norm_num,
      show ((319 : ℝ) - 320) = -1 by norm_num]
    have hre : ((⟨-1, -1⟩ : ℂ)).re < 0 := by
      show (-1 : ℝ) < 0
      norm_num
    have him : ((⟨-1, -1⟩ : ℂ)).im < 0 := by
      show (-1 : ℝ) < 0
      norm_num
    have harg : Complex.arg ⟨-1, -1⟩ < -(Real.pi / 2) := by
      rw [Complex.arg_of_re_neg_of_im_neg hre him]
      have habs : 1 < Complex.abs ⟨-1, -1⟩ := by
        rw [Complex.abs_apply, Complex.normSq_mk]
        rw [show ((-1 : ℝ) * -1 + -1 * -1) = 2 by norm_num]
        rw [show (1 : ℝ) = Real.sqrt 1 from (Real.sqrt_one).symm]
        exact Real.sqrt_lt_sqrt (by norm_num) (by norm_num)
      have hquot : (-(⟨-1, -1⟩ : ℂ)).im / Complex.abs ⟨-1, -1⟩ < 1 := by
        rw [show (-(⟨-1, -1⟩ : ℂ)).im = 1 by simp [Complex.neg_im]]
        exact (div_lt_one (lt_trans zero_lt_one habs)).mpr habs
      have harcsin := Real.arcsin_lt_pi_div_two.mpr hquot
      linarith
    show Complex.arg ⟨-1, -1⟩ * 180 / Real.pi - 90 < -180
    have hpi := Real.pi_pos
    have h1 : Complex.arg ⟨-1, -1⟩ * 180 / Real.pi < -90 := by
      rw [div_lt_iff₀ hpi]
      nlinarith
    linarith
  · show 0 < Real.sqrt (((399 : ℝ) - 400) ^ 2 + ((319 : ℝ) - 320) ^ 2)
    apply Real.sqrt_pos.mpr
    norm_num

/-- C6 (amended): for positive distance, `locate` stores as `distance` the
Euclidean norm of the difference vector and as heading
`atan2(dist_x, dist_y)·180/π − 90`, which lies in (−270, 90]: the −90°
sprite offset shifts atan2's (−180, 180] degree range down, so headings
below −180 do occur. -/
theorem locate_spec (s : Satellite) (p : Planet)
    (hd : 0 < (s.locate p).distance) :
    (s.locate p).distance = Complex.abs ⟨s.x - p.x, s.y - p.y⟩ ∧
      (s.locate p).heading =
        atan2 (s.x - p.x) (s.y - p.y) * 180 / Real.pi - 90 ∧
      -270 < (s.locate p).heading ∧ (s.locate p).heading ≤ 90 := by
  have hpi := Real.pi_pos
  refine ⟨?_, rfl, ?_, ?_⟩
  · show Real.sqrt ((s.x - p.x) ^ 2 + (s.y - p.y) ^ 2) =
      Complex.abs ⟨s.x - p.x, s.y - p.y⟩
    rw [Complex.abs_apply, Complex.normSq_mk]
    congr 1
    ring
  · show -270 < Complex.arg ⟨s.y - p.y, s.x - p.x⟩ * 180 / Real.pi - 90
    have h1 : -180 < Complex.arg ⟨s.y - p.y, s.x - p.x⟩ * 180 / Real.pi := by
      rw [lt_div_iff₀ hpi]
      nlinarith [Complex.neg_pi_lt_arg ⟨s.y - p.y, s.x - p.x⟩]
    linarith
  · show Complex.arg ⟨s.y - p.y, s.x - p.x⟩ * 180 / Real.pi - 90 ≤ 90
    have h2 : Complex.arg ⟨s.y - p.y, s.x - p.x⟩ * 180 / Real.pi ≤ 180 := by
      rw [div_le_iff₀ hpi]
      nlinarith [Complex.arg_le_pi ⟨s.y - p.y, s.x - p.x⟩]
    linarith

/-- Witness for C6 (amended) with the satellite 120 units above the
planet. -/
theorem locate_spec_witness :
    0 < (sat_example.locate mars).distance ∧
      ((sat_example.locate mars).distance =
          Complex.abs ⟨sat_example.x - mars.x, sat_example.y - mars.y⟩ ∧
        (sat_example.locate mars).heading =
          atan2 (sat_example.x - mars.x) (sat_example.y - mars.y) * 180 /
              Real.pi - 90 ∧
        -270 < (sat_example.locate mars).heading ∧
          (sat_example.locate mars).heading ≤ 90) := by
  have hd : 0 < (sat_example.locate mars).distance := by
    show 0 < Real.sqrt (((400 : ℝ) - 400) ^ 2 + ((200 : ℝ) - 320) ^ 2)
    apply Real.sqrt_pos.mpr
    norm_num
  exact ⟨hd, locate_spec sat_example mars hd⟩

/-- C8: with the satellite exactly at the planet's position,
`Planet.gravity` reaches an unguarded division by zero (Python raises
`ZeroDivisionError`, modelled as `none`); there is no epsilon clamp or
defined fallback anywhere in the routine. -/
theorem gravity_unguarded_at_zero_distance :
    mars.gravity ⟨400, 320, 0, 0, 0, 100, 1, 0⟩ = none := by
  have h : dist_between mars ⟨400, 320, 0, 0, 0, 100, 1, 0⟩ = 0 := by
    unfold dist_between mars
    norm_num
  unfold Planet.gravity
  rw [if_pos h]

/-- Evaluation of one tick when gravity is defined and the tick is not an
eccentricity-recomputation tick. -/
theorem tick_eval (g : GameState) (keys : Keys) (s2 : Satellite)
    (hgrav : g.planet.gravity (g.sat.locate g.planet) = some s2)
    (htc : ¬(g.tick_count + 1) % (eccentricty_calc_interval * fps) = 0) :
    tick g keys = some
      { sat := (fail_check s2).update keys
        planet := g.planet.update
        dist_list := g.dist_list ++ [g.sat.distance]
        eccentricity := g.eccentricity
        tick_count := g.tick_count + 1
        mapping_enabled :=
          mapping_check g.eccentricity (fail_check s2).distance } := by
  simp only [tick, ecc_step, hgrav, Option.some_bind]
  rw [if_neg htc]
  rfl

/-- Applying `locate` against the planet from a point straight above its centre:
heading 90 and distance `d`. -/
theorem locate_mars_above (s : Satellite) (d : ℝ) (hx : s.x = 400)
    (hy : s.y = 320 - d) (hd : 0 < d) :
    s.locate mars = { s with heading := 90, distance := d } := by
  have hmx : mars.x = 400 := rfl
  have hmy : mars.y = 320 := rfl
  have h1 : s.x - mars.x = 0 := by rw [hmx, hx]; ring
  have h2 : s.y - mars.y = -d := by rw [hmy, hy]; ring
  have hH : atan2 (s.x - mars.x) (s.y - mars.y) * 180 / Real.pi - 90 = 90 := by
    rw [h1, h2]
    unfold atan2
    have harg : Complex.arg ⟨-d, 0⟩ = Real.pi :=
      Complex.arg_eq_pi_iff.mpr ⟨by show -d < 0; linarith, rfl⟩
    rw [harg, mul_comm Real.pi 180, mul_div_assoc, div_self Real.pi_ne_zero,
      mul_one]
    norm_num
  have hD : Real.sqrt ((s.x - mars.x) ^ 2 + (s.y - mars.y) ^ 2) = d := by
    rw [h1, h2, show (0 : ℝ) ^ 2 + (-d) ^ 2 = d ^ 2 by ring]
    exact Real.sqrt_sq hd.le
  show ({ s with
      heading := atan2 (s.x - mars.x) (s.y - mars.y) * 180 / Real.pi - 90,
      distance := Real.sqrt ((s.x - mars.x) ^ 2 + (s.y - mars.y) ^ 2) } :
    Satellite) = { s with heading := 90, distance := d }
  rw [hH, hD]

/-- Gravity from a point straight above the planet's centre: only `dy`
gains `2000/d²` (unit vector (0, 1), satellite mass 1, planet mass 2000). -/
theorem gravity_mars_above (s : Satellite) (d : ℝ) (hx : s.x = 400)
    (hy : s.y = 320 - d) (hd : 0 < d) (hm : s.mass = 1) :
    mars.gravity s = some { s with dy := s.dy + 2000 / d ^ 2 } := by
  have hmx : mars.x = 400 := rfl
  have hmy : mars.y = 320 := rfl
  have h1 : mars.x - s.x = 0 := by rw [hmx, hx]; ring
  have h2 : mars.y - s.y = d := by rw [hmy, hy]; ring
  have hdist : dist_between mars s = d := by
    unfold dist_between
    rw [h1, h2, show (0 : ℝ) ^ 2 + d ^ 2 = d ^ 2 by ring]
    exact Real.sqrt_sq hd.le
  have hdelta : gravity_delta mars s = (0, 2000 / d ^ 2) := by
    unfold gravity_delta
    rw [hdist, h1, h2, hm]
    rw [show mars.mass = 2000 from rfl]
    unfold force_of
    rw [Prod.mk.injEq]
    constructor
    · rw [zero_div, zero_mul]
    · rw [div_self (ne_of_gt hd), one_mul]
      norm_num
  rw [gravity_of_ne_zero mars s (by rw [hdist]; exact ne_of_gt hd), hdelta]
  simp

/-- The result of `update` never touches the `distance` field. -/
theorem update_distance (s : Satellite) (k : Keys) :
    (s.update k).distance = s.distance := by
  rcases k with ⟨r, l, u, d2⟩
  cases r <;> cases l <;> cases u <;> cases d2 <;> rfl

/-- The fail-condition check never touches the `distance` field. -/
theorem fail_check_distance (s : Satellite) :
    (fail_check s).distance = s.distance := by
  unfold fail_check
  split
  · rfl
  · split <;> rfl

/-- A defined gravity application never touches the `distance` field. -/
theorem gravity_some_distance (p : Planet) (s t : Satellite)
    (h : p.gravity s = some t) : t.distance = s.distance := by
  unfold Planet.gravity at h
  by_cases hd : dist_between p s = 0
  · rw [if_pos hd] at h
    exact absurd h (by simp)
  · rw [if_neg hd] at h
    simp only [Option.some.injEq] at h
    rw [← h]

/-- Evaluation of the first tick from the concrete initial state at
(400, 100) with `dx = 3` and no key held. -/
theorem tick_init_eval :
    tick (init_state 400 100 3) keysNone = some
      { sat := ⟨403, 100 + 5 / 121, 3, 5 / 121, 90, 100, 1, 220⟩
        planet := ⟨400, 320, 2000, rotate_by⟩
        dist_list := [0]
        eccentricity := 1
        tick_count := 1
        mapping_enabled := false } := by
  have hloc : (init_state 400 100 3).sat.locate mars =
      ⟨400, 100, 3, 0, 90, 100, 1, 220⟩ := by
    rw [locate_mars_above (init_state 400 100 3).sat 220 rfl
      (by show (100 : ℝ) = 320 - 220; norm_num) (by norm_num)]
    rfl
  have hgrav : mars.gravity (⟨400, 100, 3, 0, 90, 100, 1, 220⟩ : Satellite) =
      some ⟨400, 100, 3, 5 / 121, 90, 100, 1, 220⟩ := by
    rw [gravity_mars_above (⟨400, 100, 3, 0, 90, 100, 1, 220⟩ : Satellite) 220
      rfl (by show (100 : ℝ) = 320 - 220; norm_num) (by norm_num) rfl]
    norm_num [Satellite.mk.injEq]
  have hgl : (init_state 400 100 3).planet.gravity
      ((init_state 400 100 3).sat.locate (init_state 400 100 3).planet) =
      some ⟨400, 100, 3, 5 / 121, 90, 100, 1, 220⟩ := by
    rw [show (init_state 400 100 3).planet = mars from rfl]
    rw [hloc]
    exact hgrav
  have htc : ¬((init_state 400 100 3).tick_count + 1) %
      (eccentricty_calc_interval * fps) = 0 := by
    show ¬(0 + 1) % (eccentricty_calc_interval * fps) = 0
    norm_num [eccentricty_calc_interval, fps]
  rw [tick_eval (init_state 400 100 3) keysNone _ hgl htc]
  have hfail : fail_check (⟨400, 100, 3, 5 / 121, 90, 100, 1, 220⟩ : Satellite) =
      ⟨400, 100, 3, 5 / 121, 90, 100, 1, 220⟩ := by
    unfold fail_check
    rw [if_neg (by show ¬(100 : ℤ) ≤ 0; norm_num),
      if_neg (by show ¬(220 : ℝ) ≤ 68; norm_num)]
  rw [hfail]
  have hupd : (⟨400, 100, 3, 5 / 121, 90, 100, 1, 220⟩ : Satellite).update
      keysNone = ⟨403, 100 + 5 / 121, 3, 5 / 121, 90, 100, 1, 220⟩ := by
    show (⟨400 + 3, 100 + 5 / 121, 3, 5 / 121, 90, 100, 1, 220⟩ : Satellite) =
      ⟨403, 100 + 5 / 121, 3, 5 / 121, 90, 100, 1, 220⟩
    norm_num [Satellite.mk.injEq]
  rw [hupd]
  have hmap : mapping_check (1 : ℝ) 220 = false := by
    unfold mapping_check
    rw [if_neg (fun hc => absurd hc.1 (by norm_num))]
  show some
      ({ sat := ⟨403, 100 + 5 / 121, 3, 5 / 121, 90, 100, 1, 220⟩
         planet := ⟨400, 320, 2000, 0 + rotate_by⟩
         dist_list := [0]
         eccentricity := 1
         tick_count := 1
         mapping_enabled := mapping_check 1 220 } : GameState) = _
  rw [hmap]
  simp [GameState.mk.injEq, Planet.mk.injEq]

/-- C9 counterexample: on the very first tick the value appended to the
sample window is the stale initialisation value 0 of `sat.distance`
(`dist_list.append` runs before `sat.locate`), while the distance computed
by `locate` during that same tick is 220. -/
theorem first_sample_is_stale :
    tick (init_state 400 100 3) keysNone = some
      { sat := ⟨403, 100 + 5 / 121, 3, 5 / 121, 90, 100, 1, 220⟩
        planet := ⟨400, 320, 2000, rotate_by⟩
        dist_list := [0]
        eccentricity := 1
        tick_count := 1
        mapping_enabled := false } ∧
      ((init_state 400 100 3).sat.locate
        (init_state 400 100 3).planet).distance = 220 ∧
      (0 : ℝ) ≠ 220 := by
  refine ⟨tick_init_eval, ?_, by norm_num⟩
  rw [show (init_state 400 100 3).planet = mars from rfl]
  rw [locate_mars_above (init_state 400 100 3).sat 220 rfl
    (by show (100 : ℝ) = 320 - 220; norm_num) (by norm_num)]

/-- C9 (amended): the sample a tick appends to the window is the PRE-tick
`sat.distance` (the previous tick's value; the initial placeholder 0 on the
first tick), because the append precedes the `locate` call; the distance
computed during the tick is stored in the satellite instead. -/
theorem tick_appends_pre_tick_distance (g : GameState) (keys : Keys)
    (g2 : GameState) (h : tick g keys = some g2)
    (htc : ¬(g.tick_count + 1) % (eccentricty_calc_interval * fps) = 0) :
    g2.dist_list = g.dist_list ++ [g.sat.distance] ∧
      g2.sat.distance = (g.sat.locate g.planet).distance := by
  cases hg : g.planet.gravity (g.sat.locate g.planet) with
  | none =>
      simp only [tick, hg, Option.none_bind] at h
      exact Option.noConfusion h
  | some s2 =>
      rw [tick_eval g keys s2 hg htc] at h
      simp only [Option.some.injEq] at h
      subst h
      constructor
      · rfl
      · show ((fail_check s2).update keys).distance =
          (g.sat.locate g.planet).distance
        rw [update_distance, fail_check_distance]
        exact gravity_some_distance g.planet (g.sat.locate g.planet) s2 hg

/-- Witness for C9 (amended) at the concrete first tick from
`init_state 400 100 3`. -/
theorem tick_appends_pre_tick_distance_witness :
    ¬((init_state 400 100 3).tick_count + 1) %
        (eccentricty_calc_interval * fps) = 0 ∧
      (({ sat := ⟨403, 100 + 5 / 121, 3, 5 / 121, 90, 100, 1, 220⟩
          planet := ⟨400, 320, 2000, rotate_by⟩
          dist_list := [0]
          eccentricity := 1
          tick_count := 1
          mapping_enabled := false } : GameState).dist_list =
          (init_state 400 100 3).dist_list ++
            [(init_state 400 100 3).sat.distance] ∧
        ({ sat := ⟨403, 100 + 5 / 121, 3, 5 / 121, 90, 100, 1, 220⟩
           planet := ⟨400, 320, 2000, rotate_by⟩
           dist_list := [0]
           eccentricity := 1
           tick_count := 1
           mapping_enabled := false } : GameState).sat.distance =
          ((init_state 400 100 3).sat.locate
            (init_state 400 100 3).planet).distance) := by
  have htc : ¬((init_state 400 100 3).tick_count + 1) %
      (eccentricty_calc_interval * fps) = 0 := by
    show ¬(0 + 1) % (eccentricty_calc_interval * fps) = 0
    norm_num [eccentricty_calc_interval, fps]
  exact ⟨htc, tick_appends_pre_tick_distance (init_state 400 100 3) keysNone _
    tick_init_eval htc⟩

/-- C3 counterexample: in a tick that begins with fuel already exhausted
(fuel = 0), a held up-arrow still fires the thruster inside
`sat.update()`: the final `dy` is 5/36 − 1/20 (gravity plus the input
increment −0.05) instead of the gravity-only 5/36 obtained with no key
held, and fuel ends the tick at −2. -/
theorem tick_thrust_without_fuel :
    tick g_out_of_fuel keysUp = some
      { sat := ⟨402, 200 + (5 / 36 - 1 / 20), 2, 5 / 36 - 1 / 20, 90, -2, 1,
          120⟩
        planet := ⟨400, 320, 2000, rotate_by⟩
        dist_list := [0]
        eccentricity := 1
        tick_count := 1
        mapping_enabled := false } ∧
      tick g_out_of_fuel keysNone = some
        { sat := ⟨402, 200 + 5 / 36, 2, 5 / 36, 90, 0, 1, 120⟩
          planet := ⟨400, 320, 2000, rotate_by⟩
          dist_list := [0]
          eccentricity := 1
          tick_count := 1
          mapping_enabled := false } ∧
      (5 / 36 - 1 / 20 : ℝ) ≠ 5 / 36 := by
  have hloc : sat_out_of_fuel.locate mars = ⟨400, 200, 0, 0, 90, 0, 1, 120⟩ := by
    rw [locate_mars_above sat_out_of_fuel 120 rfl
      (by show (200 : ℝ) = 320 - 120; norm_num) (by norm_num)]
    rfl
  have hgrav : mars.gravity (⟨400, 200, 0, 0, 90, 0, 1, 120⟩ : Satellite) =
      some ⟨400, 200, 0, 5 / 36, 90, 0, 1, 120⟩ := by
    rw [gravity_mars_above (⟨400, 200, 0, 0, 90, 0, 1, 120⟩ : Satellite) 120 rfl
      (by show (200 : ℝ) = 320 - 120; norm_num) (by norm_num) rfl]
    norm_num [Satellite.mk.injEq]
  have hgl : g_out_of_fuel.planet.gravity
      (g_out_of_fuel.sat.locate g_out_of_fuel.planet) =
      some ⟨400, 200, 0, 5 / 36, 90, 0, 1, 120⟩ := by
    rw [show g_out_of_fuel.planet = mars from rfl,
      show g_out_of_fuel.sat = sat_out_of_fuel from rfl, hloc]
    exact hgrav
  have htc : ¬(g_out_of_fuel.tick_count + 1) %
      (eccentricty_calc_interval * fps) = 0 := by
    show ¬(0 + 1) % (eccentricty_calc_interval * fps) = 0
    norm_num [eccentricty_calc_interval, fps]
  have hfail : fail_check (⟨400, 200, 0, 5 / 36, 90, 0, 1, 120⟩ : Satellite) =
      ⟨400, 200, 2, 5 / 36, 90, 0, 1, 120⟩ := by
    unfold fail_check
    rw [if_pos (show ((⟨400, 200, 0, 5 / 36, 90, 0, 1, 120⟩ :
      Satellite)).fuel ≤ 0 from le_refl 0)]
    rfl
  have hmap : mapping_check (1 : ℝ) 120 = false := by
    unfold mapping_check
    rw [if_neg (fun hc => absurd hc.1 (by norm_num))]
  refine ⟨?_, ?_, by norm_num⟩
  · rw [tick_eval g_out_of_fuel keysUp _ hgl htc, hfail]
    have hupd : (⟨400, 200, 2, 5 / 36, 90, 0, 1, 120⟩ : Satellite).update
        keysUp =
        ⟨402, 200 + (5 / 36 - 1 / 20), 2, 5 / 36 - 1 / 20, 90, -2, 1, 120⟩ := by
      show (⟨400 + (2 + 0), 200 + (5 / 36 + -0.05), 2 + 0, 5 / 36 + -0.05, 90,
          0 - 2, 1, 120⟩ : Satellite) =
        ⟨402, 200 + (5 / 36 - 1 / 20), 2, 5 / 36 - 1 / 20, 90, -2, 1, 120⟩
      norm_num [Satellite.mk.injEq]
    rw [hupd]
    show some
        ({ sat := ⟨402, 200 + (5 / 36 - 1 / 20), 2, 5 / 36 - 1 / 20, 90, -2, 1,
             120⟩
           planet := ⟨400, 320, 2000, 0 + rotate_by⟩
           dist_list := [0]
           eccentricity := 1
           tick_count := 1
           mapping_enabled := mapping_check 1 120 } : GameState) = _
    rw [hmap]
    simp [GameState.mk.injEq, Planet.mk.injEq]
  · rw [tick_eval g_out_of_fuel keysNone _ hgl htc, hfail]
    have hupd : (⟨400, 200, 2, 5 / 36, 90, 0, 1, 120⟩ : Satellite).update
        keysNone = ⟨402, 200 + 5 / 36, 2, 5 / 36, 90, 0, 1, 120⟩ := by
      show (⟨400 + 2, 200 + 5 / 36, 2, 5 / 36, 90, 0, 1, 120⟩ : Satellite) =
        ⟨402, 200 + 5 / 36, 2, 5 / 36, 90, 0, 1, 120⟩
      norm_num [Satellite.mk.injEq]
    rw [hupd]
    show some
        ({ sat := ⟨402, 200 + 5 / 36, 2, 5 / 36, 90, 0, 1, 120⟩
           planet := ⟨400, 320, 2000, 0 + rotate_by⟩
           dist_list := [0]
           eccentricity := 1
           tick_count := 1
           mapping_enabled := mapping_check 1 120 } : GameState) = _
    rw [hmap]
    simp [GameState.mk.injEq, Planet.mk.injEq]

/-- C3 (amended): `check_keys` has no fuel gate: even when the tick begins
with fuel ≤ 0, a held up-arrow fires the thruster, adding −0.05 to `dy`
and subtracting 2 more units of fuel (driving it below zero until the next
tick's fail check re-clamps it). -/
theorem check_keys_not_fuel_gated (s : Satellite) (hfuel : s.fuel ≤ 0) :
    s.check_keys keysUp = s.thruster 0 (-0.05) ∧
      (s.check_keys keysUp).dy = s.dy + (-0.05) ∧
      (s.check_keys keysUp).fuel = s.fuel - 2 :=
  ⟨rfl, rfl, rfl⟩

/-- Witness for C3 (amended) at a satellite with fuel exactly 0. -/
theorem check_keys_not_fuel_gated_witness :
    sat_out_of_fuel.fuel ≤ 0 ∧
      (sat_out_of_fuel.check_keys keysUp = sat_out_of_fuel.thruster 0 (-0.05) ∧
        (sat_out_of_fuel.check_keys keysUp).dy = sat_out_of_fuel.dy + (-0.05) ∧
        (sat_out_of_fuel.check_keys keysUp).fuel = sat_out_of_fuel.fuel - 2) :=
  ⟨le_refl 0, check_keys_not_fuel_gated sat_out_of_fuel (le_refl 0)⟩

end MarsOrbiter
